import Mathlib

/-!
Verification development for the eventic SSE package (package sse).

The definitions below are a shallow embedding of the Go source in
src/unnamed/part_001 (lines 623-937): the server state, the connection
registry, broadcasting, shutdown and client removal.  Go maps are modelled
as association lists with unique keys (assignment replaces an existing
key), buffered channels as bounded FIFO lists, and the panic raised by
closing an already-closed channel as an explicit error value.
-/

namespace Eventic

/-- The payload of an event (the `Data interface{}` field), resolved into the
three cases distinguished by the type switch in sendEventToClient: a Go
string, a byte slice (which Go converts to a string byte-for-byte), or any
other value, for which json.Marshal is attempted.  The outcome of
json.Marshal is carried as an `Option String` (`none` when marshalling
fails) together with the fmt.Sprintf fallback text. -/
inductive EventData where
  | str (v : String)
  | bytes (v : String)
  | other (jsonResult : Option String) (fallback : String)
deriving DecidableEq

/-- `Event` (part_001 lines 638-642): type, data and id. -/
structure Event where
  type : String
  data : EventData
  id : String
deriving DecidableEq

/-- `Config` (part_001 lines 645-650).  The heartbeat interval is kept in
nanoseconds, the unit of Go's time.Duration. -/
structure Config where
  MaxConnections : Nat
  RetryTimeout : Nat
  HeartbeatIntervalNs : Nat
  BufferSize : Nat
deriving DecidableEq

/-- `DefaultConfig` (part_001 lines 653-660). -/
def DefaultConfig : Config :=
  { MaxConnections := 1000
    RetryTimeout := 3000
    HeartbeatIntervalNs := 30000000000
    BufferSize := 1024 }

/-- `Client` (part_001 lines 663-671): id, buffered event channel and the
closed flag.  The channel is a FIFO list whose capacity is the server's
BufferSize; the closed flag covers both the struct field and the state of
the channel, which are only ever set together under the client mutex. -/
structure Client where
  id : String
  eventCh : List Event
  closed : Bool
deriving DecidableEq

/-- Lookup in a Go map modelled as an association list. -/
def mapLookup {β : Type} (m : List (String × β)) (k : String) : Option β :=
  match m with
  | [] => none
  | p :: rest => if p.1 = k then some p.2 else mapLookup rest k

/-- Go map assignment `m[k] = v`: replaces the entry when the key is
present, otherwise appends a new entry. -/
def mapInsert {β : Type} (m : List (String × β)) (k : String) (v : β) :
    List (String × β) :=
  if m.any (fun p => p.1 = k) then
    m.map (fun p => if p.1 = k then (p.1, v) else p)
  else
    m ++ [(k, v)]

/-- Go map deletion `delete(m, k)`. -/
def mapDelete {β : Type} (m : List (String × β)) (k : String) :
    List (String × β) :=
  m.filter (fun p => p.1 ≠ k)

/-- `Server` (part_001 lines 674-682): configuration, the id-to-client
registry, the never-populated by-type registry, the cancellation state of
the server context, and whether the shutdown channel has been closed. -/
structure Server where
  config : Config
  clients : List (String × Client)
  clientsByType : List (String × List (String × Client))
  ctxCancelled : Bool
  shutdownClosed : Bool
deriving DecidableEq

/-- `NewServerWithConfig` (part_001 lines 690-706): fresh maps, live
context, open shutdown channel. -/
def NewServerWithConfig (config : Config) : Server :=
  { config := config
    clients := []
    clientsByType := []
    ctxCancelled := false
    shutdownClosed := false }

/-- `NewServer` (part_001 lines 685-687). -/
def NewServer : Server :=
  NewServerWithConfig DefaultConfig

/-- `generateClientID` (part_001 lines 935-937): the current
time.Now().UnixNano() value rendered after the fixed prefix. -/
def generateClientID (nowUnixNano : Nat) : String :=
  "client_" ++ toString nowUnixNano

/-- Non-blocking send on a buffered channel, the
`select \x7b case ch <- e: default: \x7d` idiom: the send succeeds exactly
when the buffer has spare capacity. -/
def trySend (cap : Nat) (ch : List Event) (e : Event) : Option (List Event) :=
  if ch.length < cap then some (ch ++ [e]) else none

/-- The per-client body of the Broadcast loop (part_001 lines 783-790):
enqueue when the channel has room, otherwise leave the client untouched
(it is scheduled for removal instead). -/
def broadcastClient (cap : Nat) (event : Event) (c : Client) : Client :=
  match trySend cap c.eventCh event with
  | some ch => { c with eventCh := ch }
  | none => c

/-- `Server.Broadcast` (part_001 lines 779-791): under the read lock, walk
every registered client and attempt a non-blocking enqueue; clients whose
channel is full are scheduled for asynchronous removal.  Returns the
updated server together with the ids handed to `go s.removeClient(...)`. -/
def Broadcast (s : Server) (event : Event) : Server × List String :=
  ({ s with
      clients := s.clients.map
        (fun p => (p.1, broadcastClient s.config.BufferSize event p.2)) },
   (s.clients.filter
      (fun p => (trySend s.config.BufferSize p.2.eventCh event).isNone)).map
     Prod.fst)

/-- `Server.BroadcastToType` (part_001 lines 794-808): the body is the
Broadcast loop verbatim; the eventType argument is never consulted because
no subscription index exists. -/
def BroadcastToType (s : Server) (eventType : String) (event : Event) :
    Server × List String :=
  ({ s with
      clients := s.clients.map
        (fun p => (p.1, broadcastClient s.config.BufferSize event p.2)) },
   (s.clients.filter
      (fun p => (trySend s.config.BufferSize p.2.eventCh event).isNone)).map
     Prod.fst)

/-- `Server.GetConnectionCount` (part_001 lines 811-815): read the size of
the registry under the read lock.  The server state is returned unchanged
to make the absence of side effects explicit. -/
def GetConnectionCount (s : Server) : Nat × Server :=
  (s.clients.length, s)

/-- `Client.close` (part_001 lines 924-932): under the client mutex, set
the closed flag and close the event channel, guarded so that a second call
does nothing. -/
def Client.close (c : Client) : Client :=
  if c.closed then c else { c with closed := true }

/-- `Server.removeClient` (part_001 lines 890-903): under the write lock,
if the id is present close that client, delete its registry entry and its
entries in the by-type maps; otherwise do nothing.  The closed client is
returned as the observable effect of the call. -/
def removeClient (s : Server) (clientID : String) : Server × Option Client :=
  match mapLookup s.clients clientID with
  | some client =>
      ({ s with
          clients := mapDelete s.clients clientID
          clientsByType :=
            s.clientsByType.map (fun p => (p.1, mapDelete p.2 clientID)) },
       some client.close)
  | none => (s, none)

/-- `Server.Shutdown` (part_001 lines 818-836): under the write lock,
cancel the server context, close every client, replace both registries
with fresh empty maps, and finally `close(s.shutdown)`.  Closing an
already-closed channel panics in Go; the panic message is returned in the
second component, with the first component holding the state reached
before the panic (all earlier statements have executed by then). -/
def Shutdown (s : Server) : Server × Option String :=
  if s.shutdownClosed then
    ({ s with ctxCancelled := true, clients := [], clientsByType := [] },
     some "close of closed channel")
  else
    ({ s with
        ctxCancelled := true
        clients := []
        clientsByType := []
        shutdownClosed := true },
     none)

/-- Stringification of the event payload in `sendEventToClient`
(part_001 lines 858-872): strings pass through, byte slices are converted
to strings, anything else is JSON-marshalled with the fmt.Sprintf fallback
when marshalling fails. -/
def dataToString (d : EventData) : String :=
  match d with
  | .str v => v
  | .bytes v => v
  | .other jsonResult fallback =>
      match jsonResult with
      | some jsonData => jsonData
      | none => fallback

/-- The wire text built by `sendEventToClient` (part_001 lines 847-874):
an id line when the id is non-empty, an event line when the type is
non-empty, then the data line ending in a blank line. -/
def formatEvent (e : Event) : String :=
  (if e.id ≠ "" then "id: " ++ e.id ++ "\n" else "")
    ++ (if e.type ≠ "" then "event: " ++ e.type ++ "\n" else "")
    ++ ("data: " ++ dataToString e.data ++ "\n\n")

/-- `Server.sendEventToClient` (part_001 lines 839-887): fails when the
client is already closed, otherwise formats the event and writes it; a
failure of the underlying connection write is modelled by the writeOk
flag.  On success the text put on the wire is returned. -/
def sendEventToClient (client : Client) (event : Event) (writeOk : Bool) :
    Except String String :=
  if client.closed then .error "client connection closed"
  else if writeOk then .ok (formatEvent event)
  else .error "write failure"

/-- A fresh client as built by HandleSSE (part_001 lines 734-739):
empty buffered channel, not closed. -/
def mkClient (clientID : String) : Client :=
  { id := clientID, eventCh := [], closed := false }

/-- The capacity check of HandleSSE (part_001 lines 723-730): performed
under the read lock, which is released again before registration. -/
def checkCapacityExceeded (s : Server) : Bool :=
  decide (s.clients.length ≥ s.config.MaxConnections)

/-- The registration step of HandleSSE (part_001 lines 741-744): insert
the new client under the write lock, unconditionally. -/
def registerClient (s : Server) (clientID : String) : Server :=
  { s with clients := mapInsert s.clients clientID (mkClient clientID) }

/-- Outcome of the admission part of HandleSSE. -/
inductive AdmissionOutcome where
  | streamingUnsupported
  | tooManyConnections
  | registered (clientID : String)
deriving DecidableEq

/-- HandleSSE up to and including registration (part_001 lines 709-744),
for an attempt whose capacity check and insertion run without another
registration interleaving between them: reject with 500 when the sink
cannot flush, with 503 when the registry is at capacity, otherwise insert
the new client. -/
def handleSSEAdmission (s : Server) (flusherOk : Bool) (clientID : String) :
    Server × AdmissionOutcome :=
  if ¬ flusherOk then (s, .streamingUnsupported)
  else if checkCapacityExceeded s then (s, .tooManyConnections)
  else (registerClient s clientID, .registered clientID)

/-- Folding a sequence of Broadcast calls over the server state (the
removal goroutines scheduled for full clients run asynchronously and are
not part of the fold). -/
def broadcastAll (s : Server) (events : List Event) : Server :=
  events.foldl (fun st e => (Broadcast st e).1) s

/-- The subsequence of a broadcast sequence that lands in one client's
queue: an event is delivered exactly when the queue has room at the moment
of its broadcast.  This is the per-client projection of broadcastAll. -/
def deliveredTo (cap : Nat) (q : List Event) (events : List Event) :
    List Event :=
  match events with
  | [] => []
  | e :: es =>
      if q.length < cap then e :: deliveredTo cap (q ++ [e]) es
      else deliveredTo cap q es

/-! ## Helper lemmas about the registry model -/

theorem mapLookup_map_snd {β γ : Type} (f : β → γ) (m : List (String × β))
    (k : String) :
    mapLookup (m.map (fun p => (p.1, f p.2))) k = (mapLookup m k).map f := by
  induction m with
  | nil => rfl
  | cons p rest ih =>
      by_cases hk : p.1 = k <;> simp [mapLookup, hk, ih]

theorem mapLookup_mapDelete {β : Type} (m : List (String × β)) (k : String) :
    mapLookup (mapDelete m k) k = none := by
  induction m with
  | nil => rfl
  | cons p rest ih =>
      by_cases hk : p.1 = k <;> simp [mapDelete, hk, mapLookup] at ih ⊢ <;>
        simpa [mapDelete, mapLookup, hk] using ih

theorem mem_filter_keys_iff {β : Type} (m : List (String × β))
    (g : String × β → Bool) (k : String) (c : β)
    (hnd : (m.map Prod.fst).Nodup) (h : mapLookup m k = some c) :
    k ∈ (m.filter g).map Prod.fst ↔ g (k, c) = true := by
  induction m with
  | nil => simp [mapLookup] at h
  | cons p rest ih =>
      obtain ⟨k1, v⟩ := p
      simp only [List.map_cons, List.nodup_cons] at hnd
      by_cases hk : k1 = k
      · subst hk
        have hvc : v = c := by simpa [mapLookup] using h
        have hnotin : k1 ∉ (rest.filter g).map Prod.fst := fun hmem =>
          hnd.1 ((rest.filter_sublist.map Prod.fst).subset hmem)
        rw [← hvc]
        cases hg : g (k1, v) with
        | true => simp [List.filter_cons, hg]
        | false => simp [List.filter_cons, hg, hnotin]
      · simp only [mapLookup, if_neg hk] at h
        have := ih hnd.2 h
        cases hg : g (k1, v) with
        | true => simpa [List.filter_cons, hg, Ne.symm hk] using this
        | false => simpa [List.filter_cons, hg] using this

theorem mapInsert_length_le {β : Type} (m : List (String × β)) (k : String)
    (v : β) : (mapInsert m k v).length ≤ m.length + 1 := by
  by_cases h : m.any (fun p => p.1 = k) <;> simp [mapInsert, h]

/-! ## Claim theorems -/

/-- Claim C4: for every event type string and every event, BroadcastToType
is operationally identical to Broadcast — same updated server state (so
the same enqueue and eviction behaviour for every client) and the same
set of clients scheduled for removal, with no restriction to clients
subscribed to the given type.  The two Go loop bodies are verbatim
copies, so the two functions agree definitionally. -/
theorem BroadcastToType_eq_Broadcast (s : Server) (eventType : String)
    (event : Event) :
    BroadcastToType s eventType event = Broadcast s event := rfl

/-- Claim C2 (code bug demonstration): the first Shutdown completes
without panic and leaves the connection count at zero, but a second
Shutdown on the resulting state reaches close(s.shutdown) on an
already-closed channel and panics — the call does not complete without
error as the claim requires.  The registry is nonetheless empty at the
point of the panic. -/
theorem Shutdown_second_call_panics :
    (Shutdown NewServer).2 = none
      ∧ (GetConnectionCount (Shutdown NewServer).1).1 = 0
      ∧ (Shutdown (Shutdown NewServer).1).2 = some "close of closed channel"
      ∧ (Shutdown (Shutdown NewServer).1).1.clients = [] := by
  refine ⟨rfl, rfl, rfl, rfl⟩

/-- Claim C9 (code bug demonstration): generateClientID depends only on
the time.Now().UnixNano() reading, so two registrations whose readings
coincide obtain the same id.  Both admissions then report success with
the same id, and the second map assignment silently replaces the first
client's registry entry, leaving a single registered client after two
successful registrations. -/
theorem generateClientID_collision :
    generateClientID 42 = generateClientID 42
      ∧ (handleSSEAdmission NewServer true (generateClientID 42)).2
          = .registered "client_42"
      ∧ (handleSSEAdmission
            (handleSSEAdmission NewServer true (generateClientID 42)).1 true
            (generateClientID 42)).2 = .registered "client_42"
      ∧ (handleSSEAdmission
            (handleSSEAdmission NewServer true (generateClientID 42)).1 true
            (generateClientID 42)).1.clients.length = 1 := by
  refine ⟨rfl, by decide, by decide, by decide⟩

/-- Claim C10: Broadcast and BroadcastToType do not synchronously mutate
the registry: the set and order of registered ids, the connection count,
the configuration, the by-type map, the context state and the shutdown
flag are unchanged when the call returns; each client keeps its id and
closed flag, its queue either untouched or extended by the event (never
removed) — eviction of full clients is only handed to separately
scheduled removal tasks, listed in the second component.  GetConnectionCount
returns the server state unchanged. -/
theorem Broadcast_frame (s : Server) (eventType : String) (event : Event) :
    (Broadcast s event).1.clients.map Prod.fst = s.clients.map Prod.fst
      ∧ (Broadcast s event).1.clients.length = s.clients.length
      ∧ (Broadcast s event).1.config = s.config
      ∧ (Broadcast s event).1.clientsByType = s.clientsByType
      ∧ (Broadcast s event).1.ctxCancelled = s.ctxCancelled
      ∧ (Broadcast s event).1.shutdownClosed = s.shutdownClosed
      ∧ (∀ cid : String,
          mapLookup (Broadcast s event).1.clients cid
            = (mapLookup s.clients cid).map
                (broadcastClient s.config.BufferSize event))
      ∧ (∀ c : Client,
          (broadcastClient s.config.BufferSize event c).id = c.id
            ∧ (broadcastClient s.config.BufferSize event c).closed = c.closed
            ∧ ((broadcastClient s.config.BufferSize event c).eventCh
                  = c.eventCh
                ∨ (broadcastClient s.config.BufferSize event c).eventCh
                  = c.eventCh ++ [event]))
      ∧ BroadcastToType s eventType event = Broadcast s event
      ∧ GetConnectionCount s = (s.clients.length, s) := by
  refine ⟨?_, ?_, rfl, rfl, rfl, rfl, ?_, ?_, rfl, rfl⟩
  · simp [Broadcast]
  · simp [Broadcast]
  · intro cid
    exact mapLookup_map_snd (broadcastClient s.config.BufferSize event)
      s.clients cid
  · intro c
    unfold broadcastClient trySend
    by_cases h : c.eventCh.length < s.config.BufferSize <;> simp [h]

/-- Claim C5: event serialization follows the wire grammar exactly — an
id line only when the id is non-empty, an event line only when the type is
non-empty, then the data line ending in two newlines; a string payload
passes through unchanged, a byte payload is the UTF-8 text of the bytes,
other payloads use the JSON encoding when it succeeds and the
human-readable fallback otherwise, and sending to an open client never
fails because of the payload; the concrete example serializes to exactly
the required octets. -/
theorem formatEvent_wire_grammar :
    formatEvent { type := "x", data := .str "hello", id := "7" }
        = "id: 7\nevent: x\ndata: hello\n\n"
      ∧ (∀ e : Event, e.id ≠ "" → e.type ≠ "" →
          formatEvent e = ("id: " ++ e.id ++ "\n")
            ++ ("event: " ++ e.type ++ "\n")
            ++ ("data: " ++ dataToString e.data ++ "\n\n"))
      ∧ (∀ e : Event, e.id = "" → e.type ≠ "" →
          formatEvent e
            = ("event: " ++ e.type ++ "\n")
                ++ ("data: " ++ dataToString e.data ++ "\n\n"))
      ∧ (∀ e : Event, e.id ≠ "" → e.type = "" →
          formatEvent e
            = ("id: " ++ e.id ++ "\n")
                ++ ("data: " ++ dataToString e.data ++ "\n\n"))
      ∧ (∀ e : Event, e.id = "" → e.type = "" →
          formatEvent e = "data: " ++ dataToString e.data ++ "\n\n")
      ∧ (∀ v, dataToString (.str v) = v)
      ∧ (∀ v, dataToString (.bytes v) = v)
      ∧ (∀ j f, dataToString (.other (some j) f) = j)
      ∧ (∀ f, dataToString (.other none f) = f)
      ∧ (∀ (c : Client) (e : Event), c.closed = false →
          sendEventToClient c e true = .ok (formatEvent e)) := by
  refine ⟨rfl, ?_, ?_, ?_, ?_, fun v => rfl, fun v => rfl,
    fun j f => rfl, fun f => rfl, ?_⟩
  · intro e h1 h2
    simp [formatEvent, h1, h2]
  · intro e h1 h2
    simp [formatEvent, h1, h2]
  · intro e h1 h2
    simp [formatEvent, h1, h2]
  · intro e h1 h2
    simp [formatEvent, h1, h2]
  · intro c e hc
    simp [sendEventToClient, hc]

/-- Witness for C5: the grammar cases and the non-aborting send evaluated
at concrete events and a concrete open client. -/
theorem formatEvent_wire_grammar_witness :
    formatEvent { type := "", data := .bytes "raw", id := "" }
        = "data: raw\n\n"
      ∧ formatEvent { type := "t", data := .other none "fallback", id := "" }
        = "event: t\ndata: fallback\n\n"
      ∧ sendEventToClient { id := "a", eventCh := [], closed := false }
          { type := "", data := .other none "unencodable", id := "" } true
        = .ok "data: unencodable\n\n" :=
  ⟨formatEvent_wire_grammar.2.2.2.2.1
      { type := "", data := .bytes "raw", id := "" } rfl rfl,
   formatEvent_wire_grammar.2.2.1
      { type := "t", data := .other none "fallback", id := "" } rfl
      (by decide),
   formatEvent_wire_grammar.2.2.2.2.2.2.2.2.2
      { id := "a", eventCh := [], closed := false }
      { type := "", data := .other none "unencodable", id := "" } rfl⟩

/-- Claim C6: Broadcast never blocks on a slow consumer and isolates
per-client failures.  For every registered client: when its queue is full
the enqueue is skipped (its state is unchanged) and the client is
scheduled for asynchronous removal; when its queue has room the event is
enqueued and the client is not scheduled for removal.  The quantification
over every registered id shows the enqueue is attempted for each client
independently, and Broadcast is a total function returning normally, so
no error ever reaches the caller. -/
theorem Broadcast_slow_consumer_eviction (s : Server) (event : Event)
    (cid : String) (c : Client)
    (hnd : (s.clients.map Prod.fst).Nodup)
    (h : mapLookup s.clients cid = some c) :
    (s.config.BufferSize ≤ c.eventCh.length →
        mapLookup (Broadcast s event).1.clients cid = some c
          ∧ cid ∈ (Broadcast s event).2)
      ∧ (c.eventCh.length < s.config.BufferSize →
          mapLookup (Broadcast s event).1.clients cid
              = some { c with eventCh := c.eventCh ++ [event] }
            ∧ cid ∉ (Broadcast s event).2) := by
  have hlook : mapLookup (Broadcast s event).1.clients cid
      = (mapLookup s.clients cid).map
          (broadcastClient s.config.BufferSize event) :=
    mapLookup_map_snd (broadcastClient s.config.BufferSize event) s.clients cid
  have hmem : cid ∈ (Broadcast s event).2 ↔
      (trySend s.config.BufferSize c.eventCh event).isNone = true :=
    mem_filter_keys_iff s.clients
      (fun p => (trySend s.config.BufferSize p.2.eventCh event).isNone)
      cid c hnd h
  constructor
  · intro hfull
    have hs : trySend s.config.BufferSize c.eventCh event = none := by
      simp [trySend, Nat.not_lt.mpr hfull]
    refine ⟨?_, hmem.mpr (by simp [hs])⟩
    rw [hlook, h]
    simp [broadcastClient, hs]
  · intro hroom
    have hs : trySend s.config.BufferSize c.eventCh event
        = some (c.eventCh ++ [event]) := by
      simp [trySend, hroom]
    have hnot : cid ∉ (Broadcast s event).2 := by
      intro habs
      have hcontra := hmem.mp habs
      rw [hs] at hcontra
      simp at hcontra
    refine ⟨?_, hnot⟩
    rw [hlook, h]
    simp [broadcastClient, hs]

/-- Witness for C6: a server with one full client (capacity 1) and one
client with room; the full client is left untouched and scheduled for
removal, the other receives the event. -/
theorem Broadcast_slow_consumer_eviction_witness :
    (mapLookup
        (Broadcast
          { config := { MaxConnections := 2, RetryTimeout := 3000,
                        HeartbeatIntervalNs := 1, BufferSize := 1 }
            clients :=
              [("a", { id := "a",
                       eventCh := [{ type := "t", data := .str "0", id := "" }],
                       closed := false }),
               ("b", { id := "b", eventCh := [], closed := false })]
            clientsByType := []
            ctxCancelled := false
            shutdownClosed := false }
          { type := "t", data := .str "1", id := "" }).1.clients "a"
      = some { id := "a",
               eventCh := [{ type := "t", data := .str "0", id := "" }],
               closed := false })
      ∧ "a" ∈ (Broadcast
          { config := { MaxConnections := 2, RetryTimeout := 3000,
                        HeartbeatIntervalNs := 1, BufferSize := 1 }
            clients :=
              [("a", { id := "a",
                       eventCh := [{ type := "t", data := .str "0", id := "" }],
                       closed := false }),
               ("b", { id := "b", eventCh := [], closed := false })]
            clientsByType := []
            ctxCancelled := false
            shutdownClosed := false }
          { type := "t", data := .str "1", id := "" }).2 :=
  (Broadcast_slow_consumer_eviction
    { config := { MaxConnections := 2, RetryTimeout := 3000,
                  HeartbeatIntervalNs := 1, BufferSize := 1 }
      clients :=
        [("a", { id := "a",
                 eventCh := [{ type := "t", data := .str "0", id := "" }],
                 closed := false }),
         ("b", { id := "b", eventCh := [], closed := false })]
      clientsByType := []
      ctxCancelled := false
      shutdownClosed := false }
    { type := "t", data := .str "1", id := "" } "a"
    { id := "a", eventCh := [{ type := "t", data := .str "0", id := "" }],
      closed := false }
    (by decide) (by decide)).1 (by decide)

/-- Claim C8: client removal is idempotent — removing an id closes that
client (its closed flag becomes true, closing its queue, and the close is
itself idempotent) and deletes its registry mapping; removing the same id
again, or removing an id that is not in the registry, is a no-op that
returns the state unchanged and reports nothing to close. -/
theorem removeClient_idempotent (s : Server) (cid : String) :
    mapLookup (removeClient s cid).1.clients cid = none
      ∧ (removeClient s cid).2 = (mapLookup s.clients cid).map Client.close
      ∧ (∀ c : Client, (Client.close c).closed = true
          ∧ Client.close (Client.close c) = Client.close c)
      ∧ removeClient (removeClient s cid).1 cid = ((removeClient s cid).1, none)
      ∧ (mapLookup s.clients cid = none → removeClient s cid = (s, none)) := by
  have hclose : ∀ c : Client, (Client.close c).closed = true
      ∧ Client.close (Client.close c) = Client.close c := by
    intro c
    unfold Client.close
    by_cases hc : c.closed <;> simp [hc]
  have hgone : mapLookup (removeClient s cid).1.clients cid = none := by
    unfold removeClient
    cases hl : mapLookup s.clients cid with
    | none => simpa [hl] using hl
    | some c => simpa using mapLookup_mapDelete s.clients cid
  refine ⟨hgone, ?_, hclose, ?_, ?_⟩
  · unfold removeClient
    cases hl : mapLookup s.clients cid <;> simp [hl]
  · unfold removeClient at hgone ⊢
    cases hl : mapLookup s.clients cid <;> simp [hl] at hgone ⊢ <;>
      simp [hgone]
  · intro hl
    unfold removeClient
    simp [hl]

/-- Witness for C8: removal of an absent id on a concrete one-client
server is a no-op, and a concrete removal followed by a second removal of
the same id leaves the state of the first removal unchanged. -/
theorem removeClient_idempotent_witness :
    removeClient
        (registerClient (NewServerWithConfig DefaultConfig) "a") "zzz"
      = (registerClient (NewServerWithConfig DefaultConfig) "a", none)
      ∧ removeClient
          (removeClient
            (registerClient (NewServerWithConfig DefaultConfig) "a") "a").1 "a"
        = ((removeClient
            (registerClient (NewServerWithConfig DefaultConfig) "a") "a").1,
           none) :=
  ⟨(removeClient_idempotent
      (registerClient (NewServerWithConfig DefaultConfig) "a") "zzz").2.2.2.2
      (by decide),
   (removeClient_idempotent
      (registerClient (NewServerWithConfig DefaultConfig) "a") "a").2.2.2.1⟩

theorem deliveredTo_sublist (cap : Nat) (q : List Event)
    (events : List Event) : (deliveredTo cap q events).Sublist events := by
  induction events generalizing q with
  | nil => simp [deliveredTo]
  | cons e es ih =>
      unfold deliveredTo
      by_cases hq : q.length < cap
      · simpa [hq] using (ih (q ++ [e])).cons₂ e
      · simpa [hq] using (ih q).cons e

theorem broadcastAll_client (s : Server) (events : List Event)
    (cid : String) (c : Client) (h : mapLookup s.clients cid = some c) :
    mapLookup (broadcastAll s events).clients cid
      = some { c with eventCh :=
          c.eventCh ++ deliveredTo s.config.BufferSize c.eventCh events } := by
  induction events generalizing s c with
  | nil =>
      simpa [broadcastAll, deliveredTo] using h
  | cons e es ih =>
      have hb : (Broadcast s e).1.clients
          = s.clients.map
              (fun p => (p.1, broadcastClient s.config.BufferSize e p.2)) :=
        rfl
      have hstep : mapLookup (Broadcast s e).1.clients cid
          = some (broadcastClient s.config.BufferSize e c) := by
        rw [hb, mapLookup_map_snd, h]
        rfl
      have hcfg : (Broadcast s e).1.config = s.config := rfl
      have hall : broadcastAll s (e :: es)
          = broadcastAll (Broadcast s e).1 es := rfl
      rw [hall]
      by_cases hq : c.eventCh.length < s.config.BufferSize
      · have hc : broadcastClient s.config.BufferSize e c
            = { c with eventCh := c.eventCh ++ [e] } := by
          simp [broadcastClient, trySend, hq]
        rw [hc] at hstep
        have hrec := ih (Broadcast s e).1 { c with eventCh := c.eventCh ++ [e] }
          hstep
        rw [hcfg] at hrec
        rw [hrec]
        simp [deliveredTo, hq, List.append_assoc]
      · have hc : broadcastClient s.config.BufferSize e c = c := by
          simp [broadcastClient, trySend, hq]
        rw [hc] at hstep
        have hrec := ih (Broadcast s e).1 c hstep
        rw [hcfg] at hrec
        rw [hrec]
        simp [deliveredTo, hq]

/-- Claim C7: per-client FIFO delivery.  For every client and every
sequence of Broadcast calls, the client's queue afterwards is its old
queue extended, in order, by exactly the events delivered to it
(deliveredTo), and that delivered subsequence preserves the relative
order of the Broadcast calls (it is a sublist of the call sequence).
Since the stream loop dequeues the FIFO queue front to back, the events
the client receives appear in broadcast order.  No statement ties
different clients together. -/
theorem broadcast_fifo_per_client (s : Server) (events : List Event)
    (cid : String) (c : Client) (h : mapLookup s.clients cid = some c) :
    mapLookup (broadcastAll s events).clients cid
        = some { c with eventCh :=
            c.eventCh ++ deliveredTo s.config.BufferSize c.eventCh events }
      ∧ (deliveredTo s.config.BufferSize c.eventCh events).Sublist events :=
  ⟨broadcastAll_client s events cid c h,
   deliveredTo_sublist s.config.BufferSize c.eventCh events⟩

/-- Witness for C7: a capacity-2 client receiving three broadcasts keeps
the first two in order and drops the third; the delivered list is an
order-preserving sublist of the broadcast sequence. -/
theorem broadcast_fifo_per_client_witness :
    mapLookup
        (broadcastAll
          { config := { MaxConnections := 5, RetryTimeout := 3000,
                        HeartbeatIntervalNs := 1, BufferSize := 2 }
            clients := [("a", { id := "a", eventCh := [], closed := false })]
            clientsByType := []
            ctxCancelled := false
            shutdownClosed := false }
          [{ type := "t", data := .str "1", id := "" },
           { type := "t", data := .str "2", id := "" },
           { type := "t", data := .str "3", id := "" }]).clients "a"
      = some { id := "a",
               eventCh := [] ++ deliveredTo 2 []
                 [{ type := "t", data := .str "1", id := "" },
                  { type := "t", data := .str "2", id := "" },
                  { type := "t", data := .str "3", id := "" }],
               closed := false }
      ∧ (deliveredTo 2 []
          [{ type := "t", data := .str "1", id := "" },
           { type := "t", data := .str "2", id := "" },
           { type := "t", data := .str "3", id := "" }]).Sublist
          [{ type := "t", data := .str "1", id := "" },
           { type := "t", data := .str "2", id := "" },
           { type := "t", data := .str "3", id := "" }] :=
  broadcast_fifo_per_client
    { config := { MaxConnections := 5, RetryTimeout := 3000,
                  HeartbeatIntervalNs := 1, BufferSize := 2 }
      clients := [("a", { id := "a", eventCh := [], closed := false })]
      clientsByType := []
      ctxCancelled := false
      shutdownClosed := false }
    [{ type := "t", data := .str "1", id := "" },
     { type := "t", data := .str "2", id := "" },
     { type := "t", data := .str "3", id := "" }] "a"
    { id := "a", eventCh := [], closed := false } (by decide)

/-! ## Interleaved registration (HandleSSE lines 723-744)

The capacity check runs under the read lock, which is released before the
client is inserted under the write lock, so the check and the insertion
of two concurrent HandleSSE calls can interleave.  Each handler is a tiny
state machine over the shared server state; one transition is one
lock-protected region of the Go code. -/

inductive HandlerPhase where
  | start
  | passedCheck
  | registered
  | rejected
deriving DecidableEq

/-- Shared server state plus the control points of two concurrent
HandleSSE calls. -/
structure TwoHandlers where
  srv : Server
  h1 : HandlerPhase
  h2 : HandlerPhase
deriving DecidableEq

/-- One step of the interleaved semantics of two HandleSSE calls with
client ids id1 and id2: a handler at start runs the read-locked capacity
check (lines 723-730) and either passes or is rejected with 503; a
handler that passed the check runs the write-locked insertion
(lines 741-744). -/
inductive RegStep (id1 id2 : String) : TwoHandlers → TwoHandlers → Prop where
  | check1Pass (t : TwoHandlers) (h : t.h1 = .start)
      (hc : checkCapacityExceeded t.srv = false) :
      RegStep id1 id2 t { t with h1 := .passedCheck }
  | check1Reject (t : TwoHandlers) (h : t.h1 = .start)
      (hc : checkCapacityExceeded t.srv = true) :
      RegStep id1 id2 t { t with h1 := .rejected }
  | insert1 (t : TwoHandlers) (h : t.h1 = .passedCheck) :
      RegStep id1 id2 t
        { t with srv := registerClient t.srv id1, h1 := .registered }
  | check2Pass (t : TwoHandlers) (h : t.h2 = .start)
      (hc : checkCapacityExceeded t.srv = false) :
      RegStep id1 id2 t { t with h2 := .passedCheck }
  | check2Reject (t : TwoHandlers) (h : t.h2 = .start)
      (hc : checkCapacityExceeded t.srv = true) :
      RegStep id1 id2 t { t with h2 := .rejected }
  | insert2 (t : TwoHandlers) (h : t.h2 = .passedCheck) :
      RegStep id1 id2 t
        { t with srv := registerClient t.srv id2, h2 := .registered }

/-- A server with capacity for a single connection. -/
def capOneServer : Server :=
  NewServerWithConfig
    { MaxConnections := 1, RetryTimeout := 3000,
      HeartbeatIntervalNs := 30000000000, BufferSize := 1024 }

def regInit : TwoHandlers :=
  { srv := capOneServer, h1 := .start, h2 := .start }

def regT1 : TwoHandlers := { regInit with h1 := .passedCheck }

def regT2 : TwoHandlers := { regT1 with h2 := .passedCheck }

def regT3 : TwoHandlers :=
  { regT2 with srv := registerClient regT2.srv "client_1", h1 := .registered }

def regT4 : TwoHandlers :=
  { regT3 with srv := registerClient regT3.srv "client_2", h2 := .registered }

/-- Claim C1 counterexample: the capacity bound CAN be violated.  From an
empty server with maxConnections = 1, the interleaving in which both
HandleSSE calls run the read-locked capacity check before either takes
the write lock to insert is reachable, and it ends with both clients
registered: the registry holds 2 clients while maxConnections is 1, so
the claimed invariant fails and the check and insertion are not one
atomic step. -/
theorem capacity_race_counterexample :
    Relation.ReflTransGen (RegStep "client_1" "client_2") regInit regT4
      ∧ regT4.srv.clients.length = 2
      ∧ regT4.srv.config.MaxConnections = 1
      ∧ ¬ regT4.srv.clients.length ≤ regT4.srv.config.MaxConnections := by
  refine ⟨?_, by decide, by decide, by decide⟩
  have s1 : RegStep "client_1" "client_2" regInit regT1 :=
    RegStep.check1Pass regInit rfl (by decide)
  have s2 : RegStep "client_1" "client_2" regT1 regT2 :=
    RegStep.check2Pass regT1 rfl (by decide)
  have s3 : RegStep "client_1" "client_2" regT2 regT3 :=
    RegStep.insert1 regT2 rfl
  have s4 : RegStep "client_1" "client_2" regT3 regT4 :=
    RegStep.insert2 regT3 rfl
  exact Relation.ReflTransGen.tail
    (Relation.ReflTransGen.tail
      (Relation.ReflTransGen.tail
        (Relation.ReflTransGen.tail Relation.ReflTransGen.refl s1) s2) s3) s4

/-- Claim C1 as amended: the capacity check (under the read lock) and the
insertion (under the write lock) are two separate critical sections, not
one atomic step.  A registration attempt whose check and insertion run
without another attempt interleaving — handleSSEAdmission — rejects with
503 exactly when count ≥ maxConnections at check time and otherwise
inserts one client, so it preserves count ≤ maxConnections; only
interleaved concurrent attempts can exceed the bound. -/
theorem handleSSEAdmission_preserves_capacity (s : Server)
    (flusherOk : Bool) (cid : String)
    (hle : s.clients.length ≤ s.config.MaxConnections) :
    (handleSSEAdmission s flusherOk cid).1.clients.length
        ≤ s.config.MaxConnections
      ∧ (s.config.MaxConnections ≤ s.clients.length → flusherOk = true →
          (handleSSEAdmission s flusherOk cid).2 = .tooManyConnections
            ∧ (handleSSEAdmission s flusherOk cid).1 = s) := by
  by_cases hf : flusherOk
  · by_cases hcap : checkCapacityExceeded s
    · constructor
      · simpa [handleSSEAdmission, hf, hcap] using hle
      · intro hge hft
        simp [handleSSEAdmission, hf, hcap]
    · have hlt : s.clients.length < s.config.MaxConnections := by
        simpa [checkCapacityExceeded] using hcap
      constructor
      · have hins :
            (mapInsert s.clients cid (mkClient cid)).length
              ≤ s.clients.length + 1 :=
          mapInsert_length_le s.clients cid (mkClient cid)
        have : (handleSSEAdmission s flusherOk cid).1.clients.length
            ≤ s.clients.length + 1 := by
          simpa [handleSSEAdmission, hf, hcap, registerClient] using hins
        exact this.trans (Nat.succ_le_of_lt hlt)
      · intro hge hft
        exact absurd hge (Nat.not_le.mpr hlt)
  · constructor
    · simpa [handleSSEAdmission, hf] using hle
    · intro hge hft
      exact absurd hft (by simpa using hf)

/-- Witness for the amended C1: a full capacity-1 server rejects a third
party with 503 and keeps its count at the bound; registration on the
empty capacity-1 server stays within the bound. -/
theorem handleSSEAdmission_preserves_capacity_witness :
    (registerClient capOneServer "client_1").clients.length
        ≤ capOneServer.config.MaxConnections
      ∧ (handleSSEAdmission (registerClient capOneServer "client_1") true
          "client_2").2 = .tooManyConnections
      ∧ (handleSSEAdmission (registerClient capOneServer "client_1") true
          "client_2").1 = registerClient capOneServer "client_1" :=
  ⟨by decide,
   ((handleSSEAdmission_preserves_capacity
      (registerClient capOneServer "client_1") true "client_2"
      (by decide)).2 (by decide) rfl).1,
   ((handleSSEAdmission_preserves_capacity
      (registerClient capOneServer "client_1") true "client_2"
      (by decide)).2 (by decide) rfl).2⟩

/-! ## Behaviour after Shutdown (claims C3) -/

theorem Shutdown_state (s : Server) :
    (Shutdown s).1.clients = []
      ∧ (Shutdown s).1.clientsByType = []
      ∧ (Shutdown s).1.ctxCancelled = true
      ∧ (Shutdown s).1.config = s.config := by
  by_cases h : s.shutdownClosed <;> simp [Shutdown, h]

theorem Broadcast_on_empty (s : Server) (event : Event)
    (h : s.clients = []) : Broadcast s event = (s, []) := by
  obtain ⟨cfg, cls, cbt, cc, sc⟩ := s
  simp only at h
  subst h
  rfl

/-- Claim C3 counterexample: a registration attempt after Shutdown is NOT
rejected.  After shutting down a fresh default server, HandleSSE's
capacity check sees the cleared registry (0 < 1000), so the attempt is
admitted and the client is registered — the outcome is not
tooManyConnections (the capacity-exceeded-equivalent 503 rejection the
claim requires) and the registry becomes non-empty. -/
theorem register_after_shutdown_not_rejected :
    (handleSSEAdmission (Shutdown NewServer).1 true "client_9").2
        = .registered "client_9"
      ∧ (handleSSEAdmission (Shutdown NewServer).1 true "client_9").2
        ≠ .tooManyConnections
      ∧ (handleSSEAdmission (Shutdown NewServer).1 true
          "client_9").1.clients.length = 1 := by
  refine ⟨by decide, by decide, by decide⟩

/-- Claim C3 as amended: after Shutdown has completed, Broadcast is a safe
no-op (the registry is empty, so no enqueue and no eviction happens and
the state is unchanged), but a new registration attempt does not fail:
because Shutdown clears the registry and HandleSSE only compares the
count against maxConnections, the capacity check passes (whenever
maxConnections > 0) and the client is registered; the handler's event
loop then observes the cancelled server context and removes the client
again (lines 768-770), leaving the registry empty. -/
theorem after_shutdown_broadcast_noop_register_admitted (s : Server)
    (cid : String) (event : Event)
    (hmax : 0 < s.config.MaxConnections) :
    Broadcast (Shutdown s).1 event = ((Shutdown s).1, [])
      ∧ (handleSSEAdmission (Shutdown s).1 true cid).2 = .registered cid
      ∧ (handleSSEAdmission (Shutdown s).1 true cid).1.clients
          = [(cid, mkClient cid)]
      ∧ (Shutdown s).1.ctxCancelled = true
      ∧ (removeClient (handleSSEAdmission (Shutdown s).1 true cid).1
          cid).1.clients = [] := by
  obtain ⟨hcl, hbt, hcc, hcfg⟩ := Shutdown_state s
  have hcheck : checkCapacityExceeded (Shutdown s).1 = false := by
    simp [checkCapacityExceeded, hcl, hcfg]
    omega
  have hreg : (handleSSEAdmission (Shutdown s).1 true cid).1.clients
      = [(cid, mkClient cid)] := by
    simp [handleSSEAdmission, hcheck, registerClient, mapInsert, hcl]
  refine ⟨Broadcast_on_empty (Shutdown s).1 event hcl, ?_, hreg, hcc, ?_⟩
  · simp [handleSSEAdmission, hcheck]
  · simp [removeClient, hreg, mapLookup, mapDelete]

/-- Witness for the amended C3: the post-shutdown behaviour evaluated on
the default server with a concrete event and client id. -/
theorem after_shutdown_witness :
    0 < NewServer.config.MaxConnections
      ∧ (Broadcast (Shutdown NewServer).1
            { type := "t", data := .str "d", id := "" }
          = ((Shutdown NewServer).1, [])
        ∧ (handleSSEAdmission (Shutdown NewServer).1 true "client_9").2
          = .registered "client_9"
        ∧ (handleSSEAdmission (Shutdown NewServer).1 true "client_9").1.clients
          = [("client_9", mkClient "client_9")]
        ∧ (Shutdown NewServer).1.ctxCancelled = true
        ∧ (removeClient
            (handleSSEAdmission (Shutdown NewServer).1 true "client_9").1
            "client_9").1.clients = []) :=
  ⟨by decide,
   after_shutdown_broadcast_noop_register_admitted NewServer "client_9"
     { type := "t", data := .str "d", id := "" } (by decide)⟩

end Eventic
